import Mathlib

/-!
Shallow embedding of grpc-health-probe (grpc-ecosystem/grpc-health-probe).

The embedding follows the Go sources:
- `internal/probe/check.go` (the `main` package variant with `parseFlags`,
  `rpcHeaders.Set`, `buildCredentials` and `probe`),
- `internal/probe/connect.go` / the `Check` helper of the `probe` package,
- `pkg/grpc-health-probe.go` (library variant with 1-based status codes),
- `pkg/prober/probe.go` (library variant whose status codes come from `iota`).

External effects (the filesystem, the gRPC dial, the health RPC itself, the
SPIFFE workload endpoint) are modelled as oracle fields of an `Env` record;
the probe flow is a pure function of the parsed flags and that environment.
Go `string` is Lean `String`, Go `time.Duration` (int64 nanoseconds) is `Int`.
-/

namespace GrpcHealthProbe

/-- Go `time.Duration`: a signed count of nanoseconds. -/
abbrev Duration := Int

/-- Stand-in for Go's `%v` rendering of a `time.Duration`.  The Go formatter
uses unit suffixes (`1s`, `250ms`, ...); no claim depends on the exact digits,
only on where the rendered duration appears inside a message, so we render
the raw nanosecond count followed by `ns`. -/
def showDuration (d : Duration) : String := toString d ++ "ns"

/-- Stand-in for Go's `%q` verb as used by the probe's log messages: the
argument wrapped in double quotes.  (The Go verb would additionally escape
exotic characters; none of the strings the claims mention contain any.) -/
def quoteGo (s : String) : String := "\"" ++ s ++ "\""

/-- `grpc_health_v1.HealthCheckResponse_ServingStatus` from health.proto. -/
inductive ServingStatus
  | UNKNOWN
  | SERVING
  | NOT_SERVING
  | SERVICE_UNKNOWN
deriving DecidableEq, Repr

/-- The protobuf-generated `String()` method of a serving status. -/
def ServingStatus.str : ServingStatus → String
  | .UNKNOWN => "UNKNOWN"
  | .SERVING => "SERVING"
  | .NOT_SERVING => "NOT_SERVING"
  | .SERVICE_UNKNOWN => "SERVICE_UNKNOWN"

/-- gRPC status codes (`google.golang.org/grpc/codes`), restricted to the
codes the probe inspects plus representatives of the remaining ones. -/
inductive Code
  | OK
  | Canceled
  | Unknown
  | InvalidArgument
  | DeadlineExceeded
  | NotFound
  | Unimplemented
  | Internal
  | Unavailable
deriving DecidableEq, Repr

/-- `String()` of a gRPC code, used when a status error is `%+v`-rendered. -/
def Code.str : Code → String
  | .OK => "OK"
  | .Canceled => "Canceled"
  | .Unknown => "Unknown"
  | .InvalidArgument => "InvalidArgument"
  | .DeadlineExceeded => "DeadlineExceeded"
  | .NotFound => "NotFound"
  | .Unimplemented => "Unimplemented"
  | .Internal => "Internal"
  | .Unavailable => "Unavailable"

/-- An error returned by the health `Check` RPC.  `grpcStatus code msg`
models an error from which `status.FromError` recovers a status (`ok==true`);
`plain msg` models any other error value (`ok==false`). -/
inductive RpcError
  | grpcStatus (code : Code) (msg : String)
  | plain (msg : String)
deriving DecidableEq, Repr

/-- The `%+v` rendering of an RPC error, as interpolated into the generic
`health rpc failed` message. -/
def RpcError.render : RpcError → String
  | .grpcStatus c m => "rpc error: code = " ++ c.str ++ " desc = " ++ m
  | .plain m => m

/-- `metadata.MD` viewed through its lookup function: for each header key,
the list of values accumulated under that key (in insertion order). -/
def MD := String → List String

/-- The empty metadata map (`make(metadata.MD)` before any `Append`). -/
def MD.empty : MD := fun _ => []

/-- Go `strings.ToLower` as `metadata.MD.Append` applies it to header keys.
Lean's `Char.toLower` folds the ASCII range, which covers every valid gRPC
metadata key (the protocol restricts key characters to lowercase ASCII,
digits and `-_.`; `Append` lowercases whatever it is handed). -/
def goToLower (s : String) : String := String.mk (s.data.map Char.toLower)

/-- `metadata.MD.Append(k, v)`: the key is converted to lowercase before
storing, then the value `v` is appended at the end of the list held under
that lowercased key; every other key is unchanged. -/
def MD.append (md : MD) (k v : String) : MD :=
  fun k2 => if k2 = goToLower k then md k2 ++ [v] else md k2

/-- Splits a list at the first occurrence of `sep`: `some (pre, post)` with
`l = pre ++ sep :: post` and `sep ∉ pre`, or `none` when `sep` is absent.
This is the content of Go's `strings.SplitN(s, sep, 2)`, whose result has
length 2 exactly when `sep` occurs in `s`. -/
def splitFirst (sep : Char) : List Char → Option (List Char × List Char)
  | [] => none
  | c :: cs =>
    if c = sep then some ([], cs)
    else
      match splitFirst sep cs with
      | none => none
      | some (a, b) => some (c :: a, b)

/-- Go `unicode.IsSpace`: the Unicode White_Space property (in the Latin-1
range: tab, newline, vertical tab, form feed, carriage return, space, NEL,
no-break space; beyond it the dedicated space code points). -/
def goIsSpace (c : Char) : Bool :=
  (9 ≤ c.val && c.val ≤ 13) || c.val = 32 || c.val = 0x85 || c.val = 0xA0 ||
  c.val = 0x1680 || (0x2000 ≤ c.val && c.val ≤ 0x200A) ||
  c.val = 0x2028 || c.val = 0x2029 || c.val = 0x202F || c.val = 0x205F ||
  c.val = 0x3000

/-- `rpcHeaders.Set` from internal/probe/check.go: split the argument at the
first colon (`strings.SplitN(value, ":", 2)`; fewer than two parts is the
`invalid RPC header` error), trim leading Unicode whitespace from the value
part (`strings.TrimLeftFunc(parts[1], unicode.IsSpace)`) and append the pair
to the metadata. -/
def rpcHeadersSet (md : MD) (value : String) : Except String MD :=
  match splitFirst ':' value.toList with
  | none =>
    .error ("invalid RPC header, expected \x27key: value\x27, got " ++ quoteGo value)
  | some (k, v) =>
    .ok (md.append (String.mk k) (String.mk (v.dropWhile goIsSpace)))

/-- The parsed flag set (`type Flags struct` of internal/probe/check.go),
with the Go zero/default values of each flag. -/
structure Flags where
  addr : String := ""
  service : String := ""
  userAgent : String := "grpc_health_probe"
  connTimeout : Duration := 1000000000
  rpcHeaders : MD := MD.empty
  rpcTimeout : Duration := 1000000000
  tls : Bool := false
  tlsNoVerify : Bool := false
  tlsCACert : String := ""
  tlsClientCert : String := ""
  tlsClientKey : String := ""
  tlsServerName : String := ""
  verbose : Bool := false
  gzip : Bool := false
  spiffe : Bool := false

/-- The validation checks of `parseFlags`, one constructor per `if` branch,
in source order. -/
inductive ArgErr
  | addrMissing
  | connTimeoutNonPos
  | rpcTimeoutNonPos
  | noVerifyWithoutTLS
  | caCertWithoutTLS
  | clientCertWithoutTLS
  | serverNameWithoutTLS
  | clientCertWithoutKey
  | clientKeyWithoutCert
  | caCertWithNoVerify
  | serverNameWithNoVerify
deriving DecidableEq, Repr, Fintype

/-- The exact message `parseFlags` produces for each failed check. -/
def ArgErr.message (e : ArgErr) (f : Flags) : String :=
  match e with
  | .addrMissing => "-addr not specified"
  | .connTimeoutNonPos =>
    "-connect-timeout must be greater than zero (specified: " ++
      showDuration f.connTimeout ++ ")"
  | .rpcTimeoutNonPos =>
    "-rpc-timeout must be greater than zero (specified: " ++
      showDuration f.rpcTimeout ++ ")"
  | .noVerifyWithoutTLS => "specified -tls-no-verify without specifying -tls"
  | .caCertWithoutTLS => "specified -tls-ca-cert without specifying -tls"
  | .clientCertWithoutTLS => "specified -tls-client-cert without specifying -tls"
  | .serverNameWithoutTLS => "specified -tls-server-name without specifying -tls"
  | .clientCertWithoutKey =>
    "specified -tls-client-cert without specifying -tls-client-key"
  | .clientKeyWithoutCert =>
    "specified -tls-client-key without specifying -tls-client-cert"
  | .caCertWithNoVerify =>
    "cannot specify -tls-ca-cert with -tls-no-verify (CA cert would not be used)"
  | .serverNameWithNoVerify =>
    "cannot specify -tls-server-name with -tls-no-verify (server name would not be used)"

/-- The `if` cascade of `parseFlags` after the flag package has filled the
`Flags` record: the first violated check, if any. -/
def validateFlags (f : Flags) : Option ArgErr :=
  if f.addr = "" then some .addrMissing
  else if f.connTimeout ≤ 0 then some .connTimeoutNonPos
  else if f.rpcTimeout ≤ 0 then some .rpcTimeoutNonPos
  else if ¬f.tls ∧ f.tlsNoVerify then some .noVerifyWithoutTLS
  else if ¬f.tls ∧ f.tlsCACert ≠ "" then some .caCertWithoutTLS
  else if ¬f.tls ∧ f.tlsClientCert ≠ "" then some .clientCertWithoutTLS
  else if ¬f.tls ∧ f.tlsServerName ≠ "" then some .serverNameWithoutTLS
  else if f.tlsClientCert ≠ "" ∧ f.tlsClientKey = "" then some .clientCertWithoutKey
  else if f.tlsClientCert = "" ∧ f.tlsClientKey ≠ "" then some .clientKeyWithoutCert
  else if f.tlsNoVerify ∧ f.tlsCACert ≠ "" then some .caCertWithNoVerify
  else if f.tlsNoVerify ∧ f.tlsServerName ≠ "" then some .serverNameWithNoVerify
  else none

/-- An X.509 certificate/key pair as loaded by `tls.LoadX509KeyPair`,
identified by the two file paths it was loaded from. -/
structure KeyPair where
  certFile : String
  keyFile : String
deriving DecidableEq, Repr

/-- Raw PEM bytes, as returned by `ioutil.ReadFile`. -/
abbrev Pem := String

/-- Oracles for the filesystem-dependent crypto helpers `buildCredentials`
calls: `tls.LoadX509KeyPair`, `ioutil.ReadFile` and
`x509.CertPool.AppendCertsFromPEM` (whether at least one certificate parses
from the PEM data). -/
structure FS where
  loadKeyPair : String → String → Except String KeyPair
  readFile : String → Except String Pem
  appendCertsFromPEM : Pem → Bool

/-- The `tls.Config` fields `buildCredentials` assigns.  `rootCAs = some pem`
records that the system trust roots were replaced by the pool parsed from
`pem`; `none` keeps the system roots. -/
structure TLSConfig where
  certificates : List KeyPair
  insecureSkipVerify : Bool
  rootCAs : Option Pem
  serverName : String

/-- First segment of `buildCredentials`: when both a client certificate and
a client key path are given, load the pair (`tls.LoadX509KeyPair`); a load
failure is fatal, success sets `cfg.Certificates` to the singleton pair.
When either path is absent nothing is loaded. -/
def loadClientPair (fs : FS) (clientCert clientKey : String) :
    Except String (List KeyPair) :=
  if clientCert ≠ "" ∧ clientKey ≠ "" then
    match fs.loadKeyPair clientCert clientKey with
    | .error e => .error ("failed to load tls client cert/key pair. error=" ++ e)
    | .ok keyPair => .ok [keyPair]
  else .ok []

/-- Second segment of `buildCredentials`: skip-verification wins outright;
otherwise a given CA-bundle path is read and parsed, replacing the system
roots, with an unreadable file or a bundle from which no certificate parses
fatal.  Returns the `InsecureSkipVerify` flag and the root-CA override. -/
def loadRoots (fs : FS) (skipVerify : Bool) (caCerts : String) :
    Except String (Bool × Option Pem) :=
  if skipVerify then .ok (true, none)
  else if caCerts ≠ "" then
    match fs.readFile caCerts with
    | .error e =>
      .error ("failed to load root CA certificates from file (" ++ caCerts ++
        ") error=" ++ e)
    | .ok pem =>
      if fs.appendCertsFromPEM pem then .ok (false, some pem)
      else .error ("no root CA certs parsed from file " ++ caCerts)
  else .ok (false, none)

/-- `buildCredentials` from internal/probe/check.go (textually identical in
main.go and pkg/grpc-health-probe.go): client pair first, then either
skip-verification or the CA bundle, then the server-name override. -/
def buildCredentials (fs : FS) (skipVerify : Bool)
    (caCerts clientCert clientKey serverName : String) :
    Except String TLSConfig :=
  match loadClientPair fs clientCert clientKey with
  | .error e => .error e
  | .ok certs =>
    match loadRoots fs skipVerify caCerts with
    | .error e => .error e
    | .ok (skip, roots) =>
      .ok { certificates := certs, insecureSkipVerify := skip, rootCAs := roots,
            serverName := if serverName ≠ "" then serverName else "" }

/-- Go `context.Context` values as the probe derives them: each constructor
records the derivation step and its parent. -/
inductive Context
  | background
  | withCancel (parent : Context)
  | withTimeout (parent : Context) (d : Duration)
  | withMetadata (parent : Context) (md : MD)

/-- Whether any ancestor of the context carries a `WithTimeout` deadline,
i.e. whether the operations issued under it can be unblocked by a timeout. -/
def Context.hasTimeoutBound : Context → Bool
  | .background => false
  | .withCancel p => p.hasTimeoutBound
  | .withTimeout _ _ => true
  | .withMetadata p _ => p.hasTimeoutBound

/-- Outcome of `grpc.DialContext` under the blocking dial options:
established, failed with `context.DeadlineExceeded`, or failed with any
other error (carried as its `%+v` rendering). -/
inductive DialResult
  | ok
  | deadlineExceeded
  | failed (cause : String)
deriving DecidableEq, Repr

/-- Outcome of the health `Check` RPC issued by the probe. -/
inductive CheckResult
  | ok (st : ServingStatus)
  | err (e : RpcError)
deriving DecidableEq, Repr

/-- The external world of one probe invocation: the filesystem oracles, the
result of `workloadapi.NewX509Source`, the dial outcome and the RPC
outcome. -/
structure Env where
  fs : FS
  spiffeSource : Except String Unit
  dial : DialResult
  check : CheckResult

/-- Exit codes of the command-line variant (internal/probe/check.go). -/
def StatusInvalidArguments : Nat := 1

/-- Exit code for a failed or timed-out connection. -/
def StatusConnectionFailure : Nat := 2

/-- Exit code for a failed, timed-out or unimplemented health RPC. -/
def StatusRPCFailure : Nat := 3

/-- Exit code for a successful RPC whose status is not SERVING. -/
def StatusUnhealthy : Nat := 4

/-- Exit code for a failed SPIFFE workload-API credential fetch. -/
def StatusSpiffeFailed : Nat := 20

/-- What one run of `probe` did and produced: its exit code, the final
classification line it logged, which phases were entered, and the contexts
created for the RPC phase. -/
structure ProbeOutcome where
  exitCode : Nat
  message : Option String
  tlsCredsAttempted : Bool
  spiffeAttempted : Bool
  dialAttempted : Bool
  checkAttempted : Bool
  rpcTimeoutCtx : Option Context
  checkCtx : Option Context

/-- Whether the run performed any I/O towards the target or the workload
endpoint: dialing, or contacting the SPIFFE workload API. -/
def ProbeOutcome.networkIo (o : ProbeOutcome) : Bool :=
  o.dialAttempted || o.spiffeAttempted

/-- The credential phase of `probe`: build TLS credentials when `-tls` is
set (failure is invalid-arguments), otherwise fetch the SPIFFE X.509 source
when `-spiffe` is set (failure is the dedicated SPIFFE exit code), otherwise
use the insecure transport.  Returns the exit code and message on failure. -/
def credsStep (f : Flags) (env : Env) : Except (Nat × String) Unit :=
  if f.tls then
    match buildCredentials env.fs f.tlsNoVerify f.tlsCACert f.tlsClientCert
        f.tlsClientKey f.tlsServerName with
    | .error e =>
      .error (StatusInvalidArguments,
        "failed to initialize tls credentials. error=" ++ e)
    | .ok _ => .ok ()
  else if f.spiffe then
    match env.spiffeSource with
    | .error e =>
      .error (StatusSpiffeFailed,
        "failed to initialize tls credentials with spiffe. error=" ++ e)
    | .ok _ => .ok ()
  else .ok ()

/-- The `probe` function of internal/probe/check.go as a pure function of
the parsed flags and the environment.  Phase order, exit codes, log messages
and context derivations follow the source line by line; in particular the
RPC phase creates `rpcTimeoutCtx := context.WithTimeout(ctx, fl.RPCTimeout)`
and then issues the call on `metadata.NewOutgoingContext(ctx, fl.RPCHeaders.MD)`,
whose parent is the cancel context `ctx`, not `rpcTimeoutCtx`. -/
def probe (f : Flags) (env : Env) : ProbeOutcome :=
  match validateFlags f with
  | some e =>
    { exitCode := StatusInvalidArguments
      message := some ("error: " ++ e.message f)
      tlsCredsAttempted := false, spiffeAttempted := false
      dialAttempted := false, checkAttempted := false
      rpcTimeoutCtx := none, checkCtx := none }
  | none =>
    let ctx := Context.withCancel .background
    if f.tls ∧ f.spiffe then
      { exitCode := StatusInvalidArguments
        message := some "-tls and -spiffe are mutually incompatible"
        tlsCredsAttempted := false, spiffeAttempted := false
        dialAttempted := false, checkAttempted := false
        rpcTimeoutCtx := none, checkCtx := none }
    else
      match credsStep f env with
      | .error (code, msg) =>
        { exitCode := code, message := some msg
          tlsCredsAttempted := f.tls, spiffeAttempted := !f.tls && f.spiffe
          dialAttempted := false, checkAttempted := false
          rpcTimeoutCtx := none, checkCtx := none }
      | .ok _ =>
        match env.dial with
        | .deadlineExceeded =>
          { exitCode := StatusConnectionFailure
            message := some ("timeout: failed to connect service " ++
              quoteGo f.addr ++ " within " ++ showDuration f.connTimeout)
            tlsCredsAttempted := f.tls, spiffeAttempted := !f.tls && f.spiffe
            dialAttempted := true, checkAttempted := false
            rpcTimeoutCtx := none, checkCtx := none }
        | .failed cause =>
          { exitCode := StatusConnectionFailure
            message := some ("error: failed to connect service at " ++
              quoteGo f.addr ++ ": " ++ cause)
            tlsCredsAttempted := f.tls, spiffeAttempted := !f.tls && f.spiffe
            dialAttempted := true, checkAttempted := false
            rpcTimeoutCtx := none, checkCtx := none }
        | .ok =>
          let rpcTimeoutCtx := Context.withTimeout ctx f.rpcTimeout
          let rpcCtx := Context.withMetadata ctx f.rpcHeaders
          match env.check with
          | .err e =>
            let msg : String :=
              match e with
              | .grpcStatus .Unimplemented m =>
                "error: this server does not implement the grpc health protocol (grpc.health.v1.Health): " ++ m
              | .grpcStatus .DeadlineExceeded _ =>
                "timeout: health rpc did not complete within " ++
                  showDuration f.rpcTimeout
              | _ => "error: health rpc failed: " ++ e.render
            { exitCode := StatusRPCFailure, message := some msg
              tlsCredsAttempted := f.tls, spiffeAttempted := !f.tls && f.spiffe
              dialAttempted := true, checkAttempted := true
              rpcTimeoutCtx := some rpcTimeoutCtx, checkCtx := some rpcCtx }
          | .ok st =>
            if st ≠ ServingStatus.SERVING then
              { exitCode := StatusUnhealthy
                message := some ("service unhealthy (responded with " ++
                  quoteGo st.str ++ ")")
                tlsCredsAttempted := f.tls, spiffeAttempted := !f.tls && f.spiffe
                dialAttempted := true, checkAttempted := true
                rpcTimeoutCtx := some rpcTimeoutCtx, checkCtx := some rpcCtx }
            else
              { exitCode := 0
                message := some ("status: " ++ st.str)
                tlsCredsAttempted := f.tls, spiffeAttempted := !f.tls && f.spiffe
                dialAttempted := true, checkAttempted := true
                rpcTimeoutCtx := some rpcTimeoutCtx, checkCtx := some rpcCtx }

namespace Prober

/-- `pkg/prober/probe.go` status constants: an `iota` block starting at 0,
so `StatusInvalidArguments` is 0. -/
def StatusInvalidArguments : Nat := 0

/-- Second member of the `iota` block: 1. -/
def StatusConnectionFailure : Nat := 1

/-- Third member of the `iota` block: 2. -/
def StatusRPCFailure : Nat := 2

/-- Fourth member of the `iota` block: 3. -/
def StatusUnhealthy : Nat := 3

/-- `prober.Config`: the library-variant configuration record. -/
structure Config where
  Addr : String := ""
  Service : String := ""
  UserAgent : String := ""
  ConnTimeout : Duration := 0
  RPCTimeout : Duration := 0
  TLS : Bool := false
  TLSNoVerify : Bool := false
  TLSCACert : String := ""
  TLSClientCert : String := ""
  TLSClientKey : String := ""
  TLSServerName : String := ""
  Verbose : Bool := false

/-- `(*Config).Validate` of pkg/prober/probe.go: the same `if` cascade as
`parseFlags`, returning the error message of the first violated check. -/
def Config.Validate (c : Config) : Option String :=
  if c.Addr = "" then some "-addr not specified"
  else if c.ConnTimeout ≤ 0 then
    some ("-connect-timeout must be greater than zero (specified: " ++
      showDuration c.ConnTimeout ++ ")")
  else if c.RPCTimeout ≤ 0 then
    some ("-rpc-timeout must be greater than zero (specified: " ++
      showDuration c.RPCTimeout ++ ")")
  else if ¬c.TLS ∧ c.TLSNoVerify then
    some "specified -tls-no-verify without specifying -tls"
  else if ¬c.TLS ∧ c.TLSCACert ≠ "" then
    some "specified -tls-ca-cert without specifying -tls"
  else if ¬c.TLS ∧ c.TLSClientCert ≠ "" then
    some "specified -tls-client-cert without specifying -tls"
  else if ¬c.TLS ∧ c.TLSServerName ≠ "" then
    some "specified -tls-server-name without specifying -tls"
  else if c.TLSClientCert ≠ "" ∧ c.TLSClientKey = "" then
    some "specified -tls-client-cert without specifying -tls-client-key"
  else if c.TLSClientCert = "" ∧ c.TLSClientKey ≠ "" then
    some "specified -tls-client-key without specifying -tls-client-cert"
  else if c.TLSNoVerify ∧ c.TLSCACert ≠ "" then
    some "cannot specify -tls-ca-cert with -tls-no-verify (CA cert would not be used)"
  else if c.TLSNoVerify ∧ c.TLSServerName ≠ "" then
    some "cannot specify -tls-server-name with -tls-no-verify (server name would not be used)"
  else none

/-- `prober.Error`: a message plus the exit code the caller should use. -/
structure Error where
  Err : String
  ExitCode : Nat
deriving DecidableEq, Repr

/-- `prober.checker`: the value `NewChecker` hands back on success. -/
structure Checker where
  config : Config

/-- `prober.NewChecker`: validate the configuration; on failure return an
`Error` carrying `StatusInvalidArguments` (which is 0 in this package). -/
def NewChecker (c : Config) : Except Error Checker :=
  match c.Validate with
  | some msg => .error { Err := msg, ExitCode := StatusInvalidArguments }
  | none => .ok { config := c }

end Prober

/-- Modelled from the spec: the configuration invariants of section 3 as
claim C3 lists them — empty target address, non-positive connect or rpc
timeout, any TLS sub-option given without `-tls`, client certificate and
client key not supplied together, or `-tls-no-verify` combined with
`-tls-ca-cert` or `-tls-server-name`.  Used only to compare the claim's
wording with the validator embedded from the source. -/
def specViolatesInvariant (f : Flags) : Prop :=
  f.addr = "" ∨ f.connTimeout ≤ 0 ∨ f.rpcTimeout ≤ 0 ∨
  (¬f.tls ∧ (f.tlsNoVerify ∨ f.tlsCACert ≠ "" ∨ f.tlsClientCert ≠ "" ∨
    f.tlsClientKey ≠ "" ∨ f.tlsServerName ≠ "")) ∨
  (f.tlsClientCert ≠ "" ∧ f.tlsClientKey = "") ∨
  (f.tlsClientCert = "" ∧ f.tlsClientKey ≠ "") ∨
  (f.tlsNoVerify ∧ (f.tlsCACert ≠ "" ∨ f.tlsServerName ≠ ""))

instance (f : Flags) : Decidable (specViolatesInvariant f) := by
  unfold specViolatesInvariant; infer_instance

/-- A filesystem oracle on which every crypto helper succeeds; used to build
concrete environments for sample runs. -/
def fsOk : FS :=
  { loadKeyPair := fun c k => .ok { certFile := c, keyFile := k }
    readFile := fun _ => .ok "PEMDATA"
    appendCertsFromPEM := fun _ => true }

/-- An environment whose connection phase succeeds and whose health RPC
yields the given outcome. -/
def mkEnv (chk : CheckResult) : Env :=
  { fs := fsOk, spiffeSource := .ok (), dial := .ok, check := chk }

/-- A flag set that passes validation: only the required `-addr` is set. -/
def wFlags : Flags := { addr := "localhost:5000" }

/-- An environment whose health RPC fails with `codes.Unimplemented`
carrying the given status message. -/
def unimplementedEnv (m : String) : Env :=
  mkEnv (.err (.grpcStatus .Unimplemented m))

/-- A filesystem oracle on which every file read fails and no PEM parses. -/
def fsCABad : FS :=
  { loadKeyPair := fun c k => .ok { certFile := c, keyFile := k }
    readFile := fun _ => .error "no such file"
    appendCertsFromPEM := fun _ => false }

/-- The credentials built on `fsOk` with skip-verification and a client
cert/key pair, used as a concrete success case. -/
def cfg0 : TLSConfig :=
  { certificates := [{ certFile := "c", keyFile := "k" }]
    insecureSkipVerify := true
    rootCAs := none
    serverName := "srv" }

theorem splitFirst_eq_none_iff (sep : Char) (l : List Char) :
    splitFirst sep l = none ↔ sep ∉ l := by
  induction l with
  | nil => simp [splitFirst]
  | cons c cs ih =>
    by_cases h : c = sep
    · subst h; simp [splitFirst]
    · simp only [splitFirst, if_neg h, List.mem_cons]
      cases hs : splitFirst sep cs with
      | none =>
        have h2 : sep ∉ cs := ih.mp hs
        have h3 : ¬sep = c := fun hsc => h hsc.symm
        simp [hs, h2, h3]
      | some p =>
        have hmem : sep ∈ cs := by
          by_contra hn
          rw [ih.mpr hn] at hs
          exact Option.noConfusion hs
        simp [hs, hmem]

theorem splitFirst_append (sep : Char) (pre post : List Char) (hpre : sep ∉ pre) :
    splitFirst sep (pre ++ sep :: post) = some (pre, post) := by
  induction pre with
  | nil => simp [splitFirst]
  | cons c cs ih =>
    have hc : ¬(c = sep) := fun hcs => hpre (hcs ▸ List.mem_cons_self c cs)
    have hcs : sep ∉ cs := fun hm => hpre (List.mem_cons_of_mem c hm)
    simp [splitFirst, hc, ih hcs]

/-- Claim C10: an `-rpc-header` argument is rejected with the
`invalid RPC header` error exactly when it contains no colon; when a colon
is present the argument is split at the first colon only — the key is the
colon-free part before it, the stored value is everything after it (which
may itself contain colons) with exactly its leading whitespace characters
removed and its trailing whitespace preserved. -/
theorem C10_rpc_header_split_and_trim (md : MD) (s : String) :
    ((rpcHeadersSet md s =
        .error ("invalid RPC header, expected \x27key: value\x27, got " ++ quoteGo s))
      ↔ ':' ∉ s.toList) ∧
    (∀ pre post : List Char, ':' ∉ pre → s.toList = pre ++ ':' :: post →
      rpcHeadersSet md s =
        .ok (md.append (String.mk pre) (String.mk (post.dropWhile goIsSpace)))) := by
  constructor
  · cases hs : splitFirst ':' s.toList with
    | none =>
      simp only [rpcHeadersSet, hs]
      exact iff_of_true trivial ((splitFirst_eq_none_iff ':' s.toList).mp hs)
    | some p =>
      have hmem : ':' ∈ s.toList := by
        by_contra hn
        rw [(splitFirst_eq_none_iff ':' s.toList).mpr hn] at hs
        exact Option.noConfusion hs
      simp only [rpcHeadersSet, hs]
      exact iff_of_false (fun h => Except.noConfusion h) (fun h => h hmem)
  · intro pre post hpre heq
    have : splitFirst ':' s.toList = some (pre, post) := by
      rw [heq]; exact splitFirst_append ':' pre post hpre
    simp only [rpcHeadersSet, this]

theorem C10_witness :
    rpcHeadersSet MD.empty "a: b:c " = .ok (MD.empty.append "a" "b:c ") ∧
    rpcHeadersSet MD.empty "nocolon" =
      .error ("invalid RPC header, expected \x27key: value\x27, got " ++ quoteGo "nocolon") := by
  constructor
  · have h := (C10_rpc_header_split_and_trim MD.empty "a: b:c ").2
      [ 'a' ] [ ' ', 'b', ':', 'c', ' ' ] (by decide) rfl
    exact h
  · exact (C10_rpc_header_split_and_trim MD.empty "nocolon").1.mpr (by decide)

/-- Claim C9: in the prober library variant the status constants start at 0
(`iota`), so `StatusInvalidArguments` is 0 — the same value as a successful
exit — and the connection-failure, rpc-failure and unhealthy categories carry
1, 2 and 3; every configuration that fails validation makes `NewChecker`
return an `Error` whose `ExitCode` is that 0. -/
theorem C9_prober_iota_status_codes :
    Prober.StatusInvalidArguments = 0 ∧
    Prober.StatusConnectionFailure = 1 ∧
    Prober.StatusRPCFailure = 2 ∧
    Prober.StatusUnhealthy = 3 ∧
    ∀ (c : Prober.Config) (msg : String), c.Validate = some msg →
      Prober.NewChecker c = .error { Err := msg, ExitCode := 0 } := by
  refine ⟨rfl, rfl, rfl, rfl, ?_⟩
  intro c msg h
  simp [Prober.NewChecker, h, Prober.StatusInvalidArguments]

theorem C9_witness :
    Prober.NewChecker { } = .error { Err := "-addr not specified", ExitCode := 0 } :=
  C9_prober_iota_status_codes.2.2.2.2 { } "-addr not specified" rfl

/-- Claim C1: whenever the probe reaches the RPC phase and the Check RPC
completes without error, a SERVING reply exits with code 0, and any other
reply exits with code 4 (`StatusUnhealthy`) logging a message that quotes
the literal reported status string. -/
theorem C1_rpc_ok_exit_codes (f : Flags) (env : Env) (st : ServingStatus)
    (hval : validateFlags f = none) (hts : ¬(f.tls ∧ f.spiffe))
    (hcreds : credsStep f env = .ok ()) (hdial : env.dial = .ok)
    (hchk : env.check = .ok st) :
    (st = .SERVING → (probe f env).exitCode = 0) ∧
    (st ≠ .SERVING →
      (probe f env).exitCode = StatusUnhealthy ∧
      (probe f env).message =
        some ("service unhealthy (responded with " ++ quoteGo st.str ++ ")")) := by
  constructor
  · intro hst
    simp [probe, hval, if_neg hts, hcreds, hdial, hchk, hst]
  · intro hst
    simp [probe, hval, if_neg hts, hcreds, hdial, hchk, hst, StatusUnhealthy]

theorem C1_witness :
    (probe wFlags (mkEnv (.ok .NOT_SERVING))).exitCode = 4 ∧
    (probe wFlags (mkEnv (.ok .NOT_SERVING))).message =
      some "service unhealthy (responded with \"NOT_SERVING\")" := by
  have h := (C1_rpc_ok_exit_codes wFlags (mkEnv (.ok .NOT_SERVING)) .NOT_SERVING
    rfl (by decide) rfl rfl rfl).2 (by decide)
  exact ⟨h.1, by rw [h.2]; rfl⟩

/-- Claim C2 (refuted by the code): in every run that reaches the RPC phase,
`probe` does create `context.WithTimeout(ctx, fl.RPCTimeout)`, but the
context the Check call is actually issued under is
`metadata.NewOutgoingContext(ctx, fl.RPCHeaders.MD)` — a child of the shared
cancel context only — so the call context carries no timeout bound at all:
the rpc-timeout never unblocks the RPC phase. -/
theorem C2_check_context_has_no_timeout (f : Flags) (env : Env)
    (hval : validateFlags f = none) (hts : ¬(f.tls ∧ f.spiffe))
    (hcreds : credsStep f env = .ok ()) (hdial : env.dial = .ok) :
    (probe f env).rpcTimeoutCtx =
      some (.withTimeout (.withCancel .background) f.rpcTimeout) ∧
    (probe f env).checkCtx =
      some (.withMetadata (.withCancel .background) f.rpcHeaders) ∧
    ((probe f env).checkCtx.map Context.hasTimeoutBound) = some false := by
  cases hchk : env.check with
  | err e =>
    simp [probe, hval, if_neg hts, hcreds, hdial, hchk, Context.hasTimeoutBound]
  | ok st =>
    by_cases hst : st = ServingStatus.SERVING <;>
      simp [probe, hval, if_neg hts, hcreds, hdial, hchk, hst,
        Context.hasTimeoutBound]

theorem C2_witness :
    ((probe wFlags (mkEnv (.ok .SERVING))).checkCtx.map Context.hasTimeoutBound) =
      some false ∧
    (probe wFlags (mkEnv (.ok .SERVING))).rpcTimeoutCtx =
      some (.withTimeout (.withCancel .background) wFlags.rpcTimeout) := by
  have h := C2_check_context_has_no_timeout wFlags (mkEnv (.ok .SERVING))
    rfl (by decide) rfl rfl
  exact ⟨h.2.2, h.1⟩

/-- Claim C4 as stated is false: the message logged for an `Unimplemented`
RPC error is not fixed — it ends with the status message reported by the
remote, so two remotes reporting different status messages produce two
different log lines (both with exit code 3). -/
theorem C4_counterexample :
    (probe wFlags (unimplementedEnv "we only do payments")).exitCode = 3 ∧
    (probe wFlags (unimplementedEnv "try again")).exitCode = 3 ∧
    (probe wFlags (unimplementedEnv "we only do payments")).message ≠
      (probe wFlags (unimplementedEnv "try again")).message := by
  refine ⟨rfl, rfl, ?_⟩
  decide

/-- Claim C4 (amended): every RPC error exits with code 3, and the message
is classified three ways — the fixed text about the unimplemented health
protocol followed by the remote's status message for `Unimplemented`, the
rpc-timeout message for `DeadlineExceeded`, and the generic
`health rpc failed` message rendering the cause for everything else. -/
theorem C4_rpc_failure_classification (f : Flags) (env : Env) (e : RpcError)
    (hval : validateFlags f = none) (hts : ¬(f.tls ∧ f.spiffe))
    (hcreds : credsStep f env = .ok ()) (hdial : env.dial = .ok)
    (hchk : env.check = .err e) :
    (probe f env).exitCode = StatusRPCFailure ∧
    (∀ m, e = .grpcStatus .Unimplemented m →
      (probe f env).message =
        some ("error: this server does not implement the grpc health protocol (grpc.health.v1.Health): " ++ m)) ∧
    (∀ m, e = .grpcStatus .DeadlineExceeded m →
      (probe f env).message =
        some ("timeout: health rpc did not complete within " ++
          showDuration f.rpcTimeout)) ∧
    ((∀ m, e ≠ .grpcStatus .Unimplemented m ∧ e ≠ .grpcStatus .DeadlineExceeded m) →
      (probe f env).message = some ("error: health rpc failed: " ++ e.render)) := by
  refine ⟨?_, ?_, ?_, ?_⟩
  · simp [probe, hval, if_neg hts, hcreds, hdial, hchk, StatusRPCFailure]
  · intro m hm
    subst hm
    simp [probe, hval, if_neg hts, hcreds, hdial, hchk]
  · intro m hm
    subst hm
    simp [probe, hval, if_neg hts, hcreds, hdial, hchk]
  · intro h
    rcases e with ⟨c, m⟩ | m
    · cases c
      case Unimplemented => exact absurd rfl (h m).1
      case DeadlineExceeded => exact absurd rfl (h m).2
      all_goals
        simp [probe, hval, if_neg hts, hcreds, hdial, hchk, RpcError.render]
    · simp [probe, hval, if_neg hts, hcreds, hdial, hchk, RpcError.render]

theorem C4_witness :
    (probe wFlags (mkEnv (.err (.grpcStatus .DeadlineExceeded "late")))).exitCode = 3 ∧
    (probe wFlags (mkEnv (.err (.grpcStatus .DeadlineExceeded "late")))).message =
      some "timeout: health rpc did not complete within 1000000000ns" := by
  have h := C4_rpc_failure_classification wFlags
    (mkEnv (.err (.grpcStatus .DeadlineExceeded "late")))
    (.grpcStatus .DeadlineExceeded "late") rfl (by decide) rfl rfl rfl
  exact ⟨h.1, by rw [h.2.2.1 "late" rfl]; rfl⟩

/-- Claim C5: when connection establishment fails the probe exits with code
2 (`StatusConnectionFailure`); a deadline expiry produces the distinct
timeout message naming the address and the configured connect-timeout, and
every other dial failure produces the generic `failed to connect` message
naming the address and the underlying cause. -/
theorem C5_connection_failure_classification (f : Flags) (env : Env)
    (hval : validateFlags f = none) (hts : ¬(f.tls ∧ f.spiffe))
    (hcreds : credsStep f env = .ok ()) :
    (env.dial = .deadlineExceeded →
      (probe f env).exitCode = StatusConnectionFailure ∧
      (probe f env).message =
        some ("timeout: failed to connect service " ++ quoteGo f.addr ++
          " within " ++ showDuration f.connTimeout)) ∧
    (∀ cause, env.dial = .failed cause →
      (probe f env).exitCode = StatusConnectionFailure ∧
      (probe f env).message =
        some ("error: failed to connect service at " ++ quoteGo f.addr ++
          ": " ++ cause)) := by
  constructor
  · intro hdial
    simp [probe, hval, if_neg hts, hcreds, hdial, StatusConnectionFailure]
  · intro cause hdial
    simp [probe, hval, if_neg hts, hcreds, hdial, StatusConnectionFailure]

theorem C5_witness :
    (probe wFlags { mkEnv (.ok .SERVING) with dial := .deadlineExceeded }).exitCode = 2 ∧
    (probe wFlags { mkEnv (.ok .SERVING) with dial := .deadlineExceeded }).message =
      some "timeout: failed to connect service \"localhost:5000\" within 1000000000ns" := by
  have h := (C5_connection_failure_classification wFlags
    { mkEnv (.ok .SERVING) with dial := .deadlineExceeded }
    rfl (by decide) rfl).1 rfl
  exact ⟨h.1, by rw [h.2]; rfl⟩

/-- Claim C6: selecting both `-tls` and `-spiffe` always ends in the
invalid-arguments exit code 1, with neither TLS credential construction nor
the SPIFFE workload fetch begun and no network I/O performed. -/
theorem C6_tls_spiffe_mutually_exclusive (f : Flags) (env : Env)
    (htls : f.tls = true) (hsp : f.spiffe = true) :
    (probe f env).exitCode = StatusInvalidArguments ∧
    (probe f env).tlsCredsAttempted = false ∧
    (probe f env).spiffeAttempted = false ∧
    (probe f env).networkIo = false := by
  cases hval : validateFlags f with
  | some e =>
    simp [probe, hval, ProbeOutcome.networkIo, StatusInvalidArguments]
  | none =>
    simp [probe, hval, htls, hsp, ProbeOutcome.networkIo, StatusInvalidArguments]

theorem loadClientPair_error_iff (fs : FS) (cc ck : String) :
    (∃ e, loadClientPair fs cc ck = .error e) ↔
      (cc ≠ "" ∧ ck ≠ "" ∧ ∃ e, fs.loadKeyPair cc ck = .error e) := by
  by_cases hc : cc ≠ "" ∧ ck ≠ ""
  · cases hl : fs.loadKeyPair cc ck with
    | error e =>
      refine iff_of_true
        ⟨"failed to load tls client cert/key pair. error=" ++ e, ?_⟩
        ⟨hc.1, hc.2, e, rfl⟩
      simp [loadClientPair, hc, hl]
    | ok kp =>
      refine iff_of_false ?_ ?_
      · rintro ⟨e, he⟩
        simp [loadClientPair, hc, hl] at he
      · rintro ⟨_, _, e, he⟩
        exact Except.noConfusion he
  · refine iff_of_false ?_ ?_
    · rintro ⟨e, he⟩
      simp [loadClientPair, hc] at he
    · rintro ⟨h1, h2, _⟩
      exact hc ⟨h1, h2⟩

theorem loadClientPair_ok_spec (fs : FS) (cc ck : String) (certs : List KeyPair)
    (h : loadClientPair fs cc ck = .ok certs) :
    (cc ≠ "" → ck ≠ "" → ∃ kp, fs.loadKeyPair cc ck = .ok kp ∧ certs = [kp]) ∧
    ((cc = "" ∨ ck = "") → certs = []) := by
  by_cases hc : cc ≠ "" ∧ ck ≠ ""
  · cases hl : fs.loadKeyPair cc ck with
    | error e => simp [loadClientPair, hc, hl] at h
    | ok kp =>
      simp only [loadClientPair, if_pos hc, hl] at h
      obtain rfl : [kp] = certs := Except.ok.inj h
      refine ⟨fun _ _ => ⟨kp, rfl, rfl⟩, fun hor => ?_⟩
      rcases hor with h1 | h2
      · exact absurd h1 hc.1
      · exact absurd h2 hc.2
  · simp only [loadClientPair, if_neg hc] at h
    obtain rfl : ([] : List KeyPair) = certs := Except.ok.inj h
    refine ⟨fun h1 h2 => absurd ⟨h1, h2⟩ hc, fun _ => rfl⟩

theorem loadRoots_error_iff (fs : FS) (sv : Bool) (ca : String) :
    (∃ e, loadRoots fs sv ca = .error e) ↔
      (sv = false ∧ ca ≠ "" ∧
        ((∃ e, fs.readFile ca = .error e) ∨
         (∃ pem, fs.readFile ca = .ok pem ∧ fs.appendCertsFromPEM pem = false))) := by
  cases sv with
  | true =>
    refine iff_of_false ?_ ?_
    · rintro ⟨e, he⟩
      simp [loadRoots] at he
    · rintro ⟨h, _⟩
      exact Bool.noConfusion h
  | false =>
    by_cases hca : ca ≠ ""
    · cases hr : fs.readFile ca with
      | error e =>
        refine iff_of_true
          ⟨"failed to load root CA certificates from file (" ++ ca ++ ") error=" ++ e, ?_⟩
          ⟨rfl, hca, Or.inl ⟨e, rfl⟩⟩
        simp [loadRoots, hca, hr]
      | ok pem =>
        cases hap : fs.appendCertsFromPEM pem with
        | true =>
          refine iff_of_false ?_ ?_
          · rintro ⟨e, he⟩
            simp [loadRoots, hca, hr, hap] at he
          · rintro ⟨_, _, herr | hpem⟩
            · rcases herr with ⟨e, he⟩
              exact Except.noConfusion he
            · rcases hpem with ⟨pem2, hp, hf⟩
              obtain rfl : pem = pem2 := Except.ok.inj hp
              rw [hap] at hf
              exact Bool.noConfusion hf
        | false =>
          refine iff_of_true
            ⟨"no root CA certs parsed from file " ++ ca, ?_⟩
            ⟨rfl, hca, Or.inr ⟨pem, rfl, hap⟩⟩
          simp [loadRoots, hca, hr, hap]
    · refine iff_of_false ?_ ?_
      · rintro ⟨e, he⟩
        simp [loadRoots, hca] at he
      · rintro ⟨_, h, _⟩
        exact h (not_not.mp hca)

theorem loadRoots_ok_spec (fs : FS) (sv : Bool) (ca : String)
    (skip : Bool) (roots : Option Pem)
    (h : loadRoots fs sv ca = .ok (skip, roots)) :
    skip = sv ∧
    (sv = false → ca ≠ "" →
      ∃ pem, fs.readFile ca = .ok pem ∧ fs.appendCertsFromPEM pem = true ∧
        roots = some pem) ∧
    ((sv = true ∨ ca = "") → roots = none) := by
  cases sv with
  | true =>
    simp only [loadRoots, if_pos] at h
    injection h with h2
    injection h2 with h3 h4
    subst h3
    subst h4
    exact ⟨rfl, fun hf => Bool.noConfusion hf, fun _ => rfl⟩
  | false =>
    by_cases hca : ca ≠ ""
    · cases hr : fs.readFile ca with
      | error e => simp [loadRoots, hca, hr] at h
      | ok pem =>
        cases hap : fs.appendCertsFromPEM pem with
        | true =>
          simp only [loadRoots, Bool.false_eq_true, if_false, if_pos hca, hr, hap,
            if_true] at h
          injection h with h2
          injection h2 with h3 h4
          subst h3
          subst h4
          refine ⟨rfl, fun _ _ => ⟨pem, rfl, hap, rfl⟩, fun hor => ?_⟩
          rcases hor with h1 | h2
          · exact Bool.noConfusion h1
          · exact absurd h2 hca
        | false => simp [loadRoots, hca, hr, hap] at h
    · have hca2 : ca = "" := not_not.mp hca
      simp only [loadRoots, Bool.false_eq_true, if_false, if_neg hca] at h
      injection h with h2
      injection h2 with h3 h4
      subst h3
      subst h4
      exact ⟨rfl, fun _ hne => absurd hca2 hne, fun _ => rfl⟩

/-- Claim C8: `buildCredentials` fails exactly when (a) a client
certificate/key pair is given in full and fails to load, or (b)
skip-verification is off, a CA-bundle path is given, and the bundle cannot
be read or yields no certificate; on success skip-verification disables
server-certificate validation, a given CA bundle replaces the system trust
roots, a given server-name override is installed, and the loaded client
pair (if any) is the sole certificate. -/
theorem C8_buildCredentials_spec (fs : FS) (skipVerify : Bool)
    (caCerts clientCert clientKey serverName : String) :
    ((∃ e, buildCredentials fs skipVerify caCerts clientCert clientKey serverName =
        .error e) ↔
      ((clientCert ≠ "" ∧ clientKey ≠ "" ∧
          ∃ e, fs.loadKeyPair clientCert clientKey = .error e) ∨
       (skipVerify = false ∧ caCerts ≠ "" ∧
          ((∃ e, fs.readFile caCerts = .error e) ∨
           (∃ pem, fs.readFile caCerts = .ok pem ∧
              fs.appendCertsFromPEM pem = false))))) ∧
    (∀ cfg, buildCredentials fs skipVerify caCerts clientCert clientKey serverName =
        .ok cfg →
      cfg.insecureSkipVerify = skipVerify ∧
      cfg.serverName = serverName ∧
      (skipVerify = false → caCerts ≠ "" →
        ∃ pem, fs.readFile caCerts = .ok pem ∧ cfg.rootCAs = some pem) ∧
      ((skipVerify = true ∨ caCerts = "") → cfg.rootCAs = none) ∧
      (clientCert ≠ "" → clientKey ≠ "" →
        ∃ kp, fs.loadKeyPair clientCert clientKey = .ok kp ∧
          cfg.certificates = [kp]) ∧
      ((clientCert = "" ∨ clientKey = "") → cfg.certificates = [])) := by
  constructor
  · constructor
    · rintro ⟨e, he⟩
      unfold buildCredentials at he
      cases h1 : loadClientPair fs clientCert clientKey with
      | error e1 =>
        exact Or.inl ((loadClientPair_error_iff fs clientCert clientKey).mp ⟨e1, h1⟩)
      | ok certs =>
        rw [h1] at he
        cases h2 : loadRoots fs skipVerify caCerts with
        | error e2 =>
          exact Or.inr ((loadRoots_error_iff fs skipVerify caCerts).mp ⟨e2, h2⟩)
        | ok pr =>
          obtain ⟨skip, roots⟩ := pr
          rw [h2] at he
          exact Except.noConfusion he
    · intro h
      rcases h with hA | hB
      · rcases (loadClientPair_error_iff fs clientCert clientKey).mpr hA with ⟨e, he⟩
        exact ⟨e, by unfold buildCredentials; rw [he]⟩
      · rcases (loadRoots_error_iff fs skipVerify caCerts).mpr hB with ⟨e, he⟩
        cases h1 : loadClientPair fs clientCert clientKey with
        | error e1 => exact ⟨e1, by unfold buildCredentials; rw [h1]⟩
        | ok certs => exact ⟨e, by unfold buildCredentials; rw [h1, he]⟩
  · intro cfg hcfg
    unfold buildCredentials at hcfg
    cases h1 : loadClientPair fs clientCert clientKey with
    | error e1 => rw [h1] at hcfg; exact Except.noConfusion hcfg
    | ok certs =>
      rw [h1] at hcfg
      cases h2 : loadRoots fs skipVerify caCerts with
      | error e2 => rw [h2] at hcfg; exact Except.noConfusion hcfg
      | ok pr =>
        obtain ⟨skip, roots⟩ := pr
        rw [h2] at hcfg
        obtain rfl := Except.ok.inj hcfg
        obtain ⟨hskip, hsome, hnone⟩ := loadRoots_ok_spec fs skipVerify caCerts skip roots h2
        obtain ⟨hcertsome, hcertnone⟩ :=
          loadClientPair_ok_spec fs clientCert clientKey certs h1
        refine ⟨hskip, ?_, ?_, hnone, hcertsome, hcertnone⟩
        · by_cases hsn : serverName ≠ ""
          · simp [hsn]
          · have h0 : serverName = "" := not_not.mp hsn
            subst h0
            simp
        · intro hsv hca
          rcases hsome hsv hca with ⟨pem, hr, _, hroots⟩
          exact ⟨pem, hr, hroots⟩

theorem C8_witness :
    (∃ e, buildCredentials fsCABad false "ca.pem" "" "" "" = .error e) ∧
    cfg0.insecureSkipVerify = true ∧ cfg0.rootCAs = none := by
  refine ⟨?_, ?_, ?_⟩
  · exact (C8_buildCredentials_spec fsCABad false "ca.pem" "" "" "").1.mpr
      (Or.inr ⟨rfl, by decide, Or.inl ⟨"no such file", rfl⟩⟩)
  · exact ((C8_buildCredentials_spec fsOk true "" "c" "k" "srv").2 cfg0 rfl).1
  · exact ((C8_buildCredentials_spec fsOk true "" "c" "k" "srv").2 cfg0 rfl).2.2.2.1
      (Or.inl rfl)

theorem C6_witness :
    (probe { addr := "x:1", tls := true, spiffe := true } (mkEnv (.ok .SERVING))).exitCode = 1 ∧
    (probe { addr := "x:1", tls := true, spiffe := true } (mkEnv (.ok .SERVING))).networkIo = false := by
  have h := C6_tls_spiffe_mutually_exclusive
    { addr := "x:1", tls := true, spiffe := true } (mkEnv (.ok .SERVING)) rfl rfl
  exact ⟨h.1, h.2.2.2⟩

theorem take51_timeout_msg (p : String) (d : Duration) (h : 51 ≤ p.data.length) :
    ((p ++ showDuration d ++ ")").toList.take 51) = p.data.take 51 := by
  show (((p ++ showDuration d) ++ ")").data).take 51 = _
  rw [String.data_append, String.data_append, List.append_assoc]
  exact List.take_append_of_le_length h

theorem message_take51_const (e : ArgErr) (f g : Flags) :
    ((e.message f).toList.take 51) = ((e.message g).toList.take 51) := by
  cases e
  case connTimeoutNonPos =>
    simp only [ArgErr.message]
    rw [take51_timeout_msg _ _ (by decide), take51_timeout_msg _ _ (by decide)]
  case rpcTimeoutNonPos =>
    simp only [ArgErr.message]
    rw [take51_timeout_msg _ _ (by decide), take51_timeout_msg _ _ (by decide)]
  all_goals rfl

theorem argErr_message_take51_ne :
    ∀ e1 e2 : ArgErr, e1 ≠ e2 →
      ((e1.message { }).toList.take 51) ≠ ((e2.message { }).toList.take 51) := by
  decide

theorem argErr_message_injective (e1 e2 : ArgErr) (f1 f2 : Flags) (h : e1 ≠ e2) :
    e1.message f1 ≠ e2.message f2 := by
  intro heq
  apply argErr_message_take51_ne e1 e2 h
  calc ((e1.message { }).toList.take 51)
      = ((e1.message f1).toList.take 51) := (message_take51_const e1 f1 { }).symm
    _ = ((e2.message f2).toList.take 51) := by rw [heq]
    _ = ((e2.message { }).toList.take 51) := message_take51_const e2 f2 { }

theorem validateFlags_isSome_iff (f : Flags) :
    (∃ e, validateFlags f = some e) ↔ specViolatesInvariant f := by
  by_cases h1 : f.addr = ""
  · exact iff_of_true ⟨.addrMissing, by simp only [validateFlags, if_pos h1]⟩ (Or.inl h1)
  by_cases h2 : f.connTimeout ≤ 0
  · exact iff_of_true ⟨.connTimeoutNonPos, by simp only [validateFlags, if_neg h1, if_pos h2]⟩
      (Or.inr (Or.inl h2))
  by_cases h3 : f.rpcTimeout ≤ 0
  · exact iff_of_true
      ⟨.rpcTimeoutNonPos, by simp only [validateFlags, if_neg h1, if_neg h2, if_pos h3]⟩
      (Or.inr (Or.inr (Or.inl h3)))
  by_cases h4 : ¬f.tls ∧ f.tlsNoVerify
  · exact iff_of_true
      ⟨.noVerifyWithoutTLS, by simp only [validateFlags, if_neg h1, if_neg h2, if_neg h3, if_pos h4]⟩
      (Or.inr (Or.inr (Or.inr (Or.inl ⟨h4.1, Or.inl h4.2⟩))))
  by_cases h5 : ¬f.tls ∧ f.tlsCACert ≠ ""
  · exact iff_of_true
      ⟨.caCertWithoutTLS, by simp only [validateFlags, if_neg h1, if_neg h2, if_neg h3, if_neg h4,
        if_pos h5]⟩
      (Or.inr (Or.inr (Or.inr (Or.inl ⟨h5.1, Or.inr (Or.inl h5.2)⟩))))
  by_cases h6 : ¬f.tls ∧ f.tlsClientCert ≠ ""
  · exact iff_of_true
      ⟨.clientCertWithoutTLS, by simp only [validateFlags, if_neg h1, if_neg h2, if_neg h3, if_neg h4,
        if_neg h5, if_pos h6]⟩
      (Or.inr (Or.inr (Or.inr (Or.inl ⟨h6.1, Or.inr (Or.inr (Or.inl h6.2))⟩))))
  by_cases h7 : ¬f.tls ∧ f.tlsServerName ≠ ""
  · exact iff_of_true
      ⟨.serverNameWithoutTLS, by simp only [validateFlags, if_neg h1, if_neg h2, if_neg h3, if_neg h4,
        if_neg h5, if_neg h6, if_pos h7]⟩
      (Or.inr (Or.inr (Or.inr (Or.inl
        ⟨h7.1, Or.inr (Or.inr (Or.inr (Or.inr h7.2)))⟩))))
  by_cases h8 : f.tlsClientCert ≠ "" ∧ f.tlsClientKey = ""
  · exact iff_of_true
      ⟨.clientCertWithoutKey, by simp only [validateFlags, if_neg h1, if_neg h2, if_neg h3, if_neg h4,
        if_neg h5, if_neg h6, if_neg h7, if_pos h8]⟩
      (Or.inr (Or.inr (Or.inr (Or.inr (Or.inl h8)))))
  by_cases h9 : f.tlsClientCert = "" ∧ f.tlsClientKey ≠ ""
  · exact iff_of_true
      ⟨.clientKeyWithoutCert, by simp only [validateFlags, if_neg h1, if_neg h2, if_neg h3, if_neg h4,
        if_neg h5, if_neg h6, if_neg h7, if_neg h8, if_pos h9]⟩
      (Or.inr (Or.inr (Or.inr (Or.inr (Or.inr (Or.inl h9))))))
  by_cases h10 : f.tlsNoVerify ∧ f.tlsCACert ≠ ""
  · exact iff_of_true
      ⟨.caCertWithNoVerify, by simp only [validateFlags, if_neg h1, if_neg h2, if_neg h3, if_neg h4,
        if_neg h5, if_neg h6, if_neg h7, if_neg h8, if_neg h9, if_pos h10]⟩
      (Or.inr (Or.inr (Or.inr (Or.inr (Or.inr (Or.inr ⟨h10.1, Or.inl h10.2⟩))))))
  by_cases h11 : f.tlsNoVerify ∧ f.tlsServerName ≠ ""
  · exact iff_of_true
      ⟨.serverNameWithNoVerify, by simp only [validateFlags, if_neg h1, if_neg h2, if_neg h3, if_neg h4,
        if_neg h5, if_neg h6, if_neg h7, if_neg h8, if_neg h9, if_neg h10,
        if_pos h11]⟩
      (Or.inr (Or.inr (Or.inr (Or.inr (Or.inr (Or.inr ⟨h11.1, Or.inr h11.2⟩))))))
  have hv : validateFlags f = none := by
    simp only [validateFlags, if_neg h1, if_neg h2, if_neg h3, if_neg h4, if_neg h5,
      if_neg h6, if_neg h7, if_neg h8, if_neg h9, if_neg h10, if_neg h11]
  refine iff_of_false ?_ ?_
  · rintro ⟨e, he⟩
    rw [hv] at he
    exact Option.noConfusion he
  · rintro (ha | hct | hrt | ⟨htls, hsub⟩ | hcm | hkm | ⟨hnv2, hsub2⟩)
    · exact h1 ha
    · exact h2 hct
    · exact h3 hrt
    · rcases hsub with hnv | hca | hcc | hck | hsn
      · exact h4 ⟨htls, hnv⟩
      · exact h5 ⟨htls, hca⟩
      · exact h6 ⟨htls, hcc⟩
      · have hcert : f.tlsClientCert ≠ "" := fun hc0 => h9 ⟨hc0, hck⟩
        exact h6 ⟨htls, hcert⟩
      · exact h7 ⟨htls, hsn⟩
    · exact h8 hcm
    · exact h9 hkm
    · rcases hsub2 with hca2 | hsn2
      · exact h10 ⟨hnv2, hca2⟩
      · exact h11 ⟨hnv2, hsn2⟩

/-- Claim C3: a raw configuration is rejected by `parseFlags` exactly when
it violates one of the section-3 invariants; every such violation makes the
probe exit with the invalid-arguments code 1 having performed no network
I/O and no credential construction, logging the violated check's message;
and distinct violated checks always produce distinct messages. -/
theorem C3_invalid_config_fail_fast :
    (∀ f, (∃ e, validateFlags f = some e) ↔ specViolatesInvariant f) ∧
    (∀ f env, specViolatesInvariant f →
      (probe f env).exitCode = StatusInvalidArguments ∧
      (probe f env).networkIo = false ∧
      (probe f env).tlsCredsAttempted = false ∧
      (∀ e, validateFlags f = some e →
        (probe f env).message = some ("error: " ++ e.message f))) ∧
    (∀ (e1 e2 : ArgErr) (f1 f2 : Flags), e1 ≠ e2 →
      e1.message f1 ≠ e2.message f2) := by
  refine ⟨validateFlags_isSome_iff, ?_, argErr_message_injective⟩
  intro f env hviol
  obtain ⟨e, he⟩ := (validateFlags_isSome_iff f).mpr hviol
  refine ⟨?_, ?_, ?_, ?_⟩
  · simp [probe, he, StatusInvalidArguments]
  · simp [probe, he, ProbeOutcome.networkIo]
  · simp [probe, he]
  · intro e2 he2
    rw [he] at he2
    obtain rfl := Option.some.inj he2
    simp [probe, he]

theorem C3_witness :
    (probe { } (mkEnv (.ok .SERVING))).exitCode = 1 ∧
    (probe { } (mkEnv (.ok .SERVING))).networkIo = false ∧
    ArgErr.addrMissing.message { } ≠ ArgErr.rpcTimeoutNonPos.message { } := by
  refine ⟨?_, ?_, ?_⟩
  · exact (C3_invalid_config_fail_fast.2.1 { } (mkEnv (.ok .SERVING)) (by decide)).1
  · exact (C3_invalid_config_fail_fast.2.1 { } (mkEnv (.ok .SERVING)) (by decide)).2.1
  · exact C3_invalid_config_fail_fast.2.2 .addrMissing .rpcTimeoutNonPos { } { }
      (by decide)

end GrpcHealthProbe
